import Mathlib

/-!
Shallow embedding of `runtime/kusama/src/polkadot_messages.rs` — the message
verification and fee-accounting logic of the Kusama ↔ Polkadot bridge.

Machine integers (`u32`, `u64`, `u128`) are modelled as `Nat` with explicit
saturation bounds where the Rust code saturates; `[u8; 4]` lane identifiers
are modelled as 4-tuples of `Nat`.  All definitions follow the production
(non-`runtime-benchmarks`) build of the file: the benchmark-only branches
are compiled out there.  External capabilities (the generic
`FromThisChainMessageVerifier` and the GRANDPA storage-proof verifier) are
taken as universally quantified parameters, since only their results flow
through this file's code.
-/

namespace PolkadotMessages

/-- Kusama / Polkadot account identifier (a 32-byte id, modelled as `Nat`). -/
abbrev AccountId := Nat

/-- `bp_messages::LaneId = [u8; 4]`: a 4-byte lane identifier. -/
abbrev LaneId := Nat × Nat × Nat × Nat

/-- `u128::MAX`. -/
def U128MAX : Nat := 340282366920938463463374607431768211455

/-- `u64::MAX` (the `Weight` type's bound). -/
def U64MAX : Nat := 18446744073709551615

/-- `u32::MAX`. -/
def U32MAX : Nat := 4294967295

/-- `sp_arithmetic::FixedU128`: unsigned fixed point with 18 decimal places,
stored as a `u128` of "inner" units. -/
structure FixedU128 where
  inner : Nat
deriving DecidableEq, Repr

/-- `FixedU128::DIV = 10^18`. -/
def FixedU128.DIV : Nat := 10 ^ 18

/-- `FixedU128::saturating_mul_int(self, n)` for `n : u128`: the exact
rational product `inner * n / DIV` rounded down, saturated at `u128::MAX`
(`checked_mul_int` computes the full-precision quotient and fails only when
it exceeds the target type's bound; `saturating_mul_int` then saturates). -/
def FixedU128.saturating_mul_int (r : FixedU128) (n : Nat) : Nat :=
  min (r.inner * n / FixedU128.DIV) U128MAX

/-- The identity conversion rate: `FixedU128::from_inner(FixedU128::DIV)`,
i.e. the fixed-point number 1. -/
def FixedU128.one : FixedU128 := ⟨FixedU128.DIV⟩

/-- Initial value of the `PolkadotToKusamaConversionRate` parameter. -/
def INITIAL_POLKADOT_TO_KUSAMA_CONVERSION_RATE : FixedU128 := ⟨FixedU128.DIV⟩

/-- Initial value of the `PolkadotFeeMultiplier` parameter. -/
def INITIAL_POLKADOT_FEE_MULTIPLIER : FixedU128 := ⟨FixedU128.DIV⟩

/-- The three `parameter_types! { pub storage ... }` cells of the bridge:
the DOT→KSM conversion rate, the Polkadot fee multiplier, and the single
optional account allowed to send messages to Polkadot. -/
structure BridgeParams where
  polkadotToKusamaConversionRate : FixedU128
  polkadotFeeMultiplier : FixedU128
  allowedMessageSender : Option AccountId
deriving DecidableEq, Repr

/-- The genesis values of the parameter cells: both fixed-point parameters
start at 1, and `AllowedMessageSender` starts at `None`. -/
def BridgeParams.genesis : BridgeParams :=
  { polkadotToKusamaConversionRate := INITIAL_POLKADOT_TO_KUSAMA_CONVERSION_RATE
    polkadotFeeMultiplier := INITIAL_POLKADOT_FEE_MULTIPLIER
    allowedMessageSender := none }

/-- `frame_system::RawOrigin` for the Kusama runtime. -/
inductive SystemRawOrigin where
  | Root
  | Signed (who : AccountId)
  | NoOrigin
deriving DecidableEq, Repr

/-- `pallet_collective::RawOrigin` (the Council's origin): `Members(yes, count)`
is a quorum of `yes` approvals out of `count` members, `Member` a single
collective member, `Phantom` the unused phantom variant. -/
inductive CollectiveRawOrigin where
  | Members (yes count : Nat)
  | Member (who : AccountId)
  | Phantom
deriving DecidableEq, Repr

/-- The runtime's `OriginCaller`: the variants the bridge code distinguishes
(`system`, `Council`) plus a representative of every other kind of origin
caller the runtime aggregates. -/
inductive OriginCaller where
  | system (o : SystemRawOrigin)
  | Council (o : CollectiveRawOrigin)
  | OtherOrigin
deriving DecidableEq, Repr

/-- The runtime `Origin`: a wrapper holding its `caller`. -/
structure Origin where
  caller : OriginCaller
deriving DecidableEq, Repr

/-- `map_council_origin`: any `Council` origin caller maps to the stored
`AllowedMessageSender` value; every other caller maps to `None`. -/
def map_council_origin (st : BridgeParams) (origin : OriginCaller) : Option AccountId :=
  match origin with
  | OriginCaller.Council _ => st.allowedMessageSender
  | _ => none

/-- `SenderOrigin::linked_account` for `Origin`, production build: the
benchmark-only `system(Signed)` arm is compiled out, so every caller goes
through `map_council_origin`. -/
def Origin.linked_account (st : BridgeParams) (o : Origin) : Option AccountId :=
  map_council_origin st o.caller

/-- `bp_runtime::messages::DispatchFeePayment`. -/
inductive DispatchFeePayment where
  | AtSourceChain
  | AtTargetChain
deriving DecidableEq, Repr

/-- `bp_message_dispatch::CallOrigin`, the origin declared inside a message
payload (distinct from the submitting runtime `Origin`). -/
inductive CallOrigin where
  | SourceRoot
  | TargetAccount (source : AccountId) (target : AccountId) (signature : List Nat)
  | SourceAccount (source : AccountId)
deriving DecidableEq, Repr

/-- `ToPolkadotMessagePayload = bp_message_dispatch::MessagePayload`: spec
version, declared dispatch weight, call origin, fee-payment location and the
encoded call. -/
structure ToPolkadotMessagePayload where
  spec_version : Nat
  weight : Nat
  origin : CallOrigin
  dispatch_fee_payment : DispatchFeePayment
  call : List Nat
deriving DecidableEq, Repr

/-- `bp_messages::OutboundLaneData`. -/
structure OutboundLaneData where
  oldest_unpruned_nonce : Nat
  latest_received_nonce : Nat
  latest_generated_nonce : Nat
deriving DecidableEq, Repr

/-- Error raised when a message is sent by anyone but `AllowedMessageSender`. -/
def NOT_ALLOWED_MESSAGE_SENDER : String := "Cannot accept message from this account"

/-- Error raised when an incoming message arrives on an unexpected lane. -/
def INBOUND_LANE_DISABLED : String := "The inbound message lane is disaled."

/-- The type of the external generic verifier
`messages_source::FromThisChainMessageVerifier::verify_message`, to which
`ToPolkadotMessageVerifier` delegates after its own sender check. -/
abbrev GenericVerifier :=
  Origin → Nat → LaneId → OutboundLaneData → ToPolkadotMessagePayload → Except String Unit

/-- `ToPolkadotMessageVerifier::verify_message`, production build: reads
`AllowedMessageSender`; unless it is `Some(a)` with the submitter's linked
account equal to `Some(a)`, returns `Err(NOT_ALLOWED_MESSAGE_SENDER)`;
otherwise delegates to the generic verifier. -/
def ToPolkadotMessageVerifier.verify_message
    (st : BridgeParams) (generic : GenericVerifier)
    (submitter : Origin) (delivery_and_dispatch_fee : Nat) (lane : LaneId)
    (lane_outbound_data : OutboundLaneData) (payload : ToPolkadotMessagePayload) :
    Except String Unit :=
  match st.allowedMessageSender with
  | some allowed_sender =>
      if submitter.linked_account st = some allowed_sender then
        generic submitter delivery_and_dispatch_fee lane lane_outbound_data payload
      else
        Except.error NOT_ALLOWED_MESSAGE_SENDER
  | none => Except.error NOT_ALLOWED_MESSAGE_SENDER

/-- `WithPolkadotMessageBridge::bridged_balance_to_this_balance`: multiply
the bridged (Polkadot, `u128`) balance by the conversion rate — the stored
one unless an override is supplied — with `saturating_mul_int`, then
`Balance::try_from(..).unwrap_or(Balance::MAX)` (the identity on `u128`,
kept as the final clamp). -/
def WithPolkadotMessageBridge.bridged_balance_to_this_balance
    (st : BridgeParams) (bridged_balance : Nat)
    (conversion_rate_override : Option FixedU128) : Nat :=
  let conversion_rate := conversion_rate_override.getD st.polkadotToKusamaConversionRate
  let converted := conversion_rate.saturating_mul_int bridged_balance
  if converted ≤ U128MAX then converted else U128MAX

/-- `Kusama::is_message_accepted`: the lane must be the hard-coded
`[0, 0, 0, 0]` and the submitter must have a linked account. -/
def Kusama.is_message_accepted (st : BridgeParams) (submitter : Origin) (lane : LaneId) : Bool :=
  lane == ((0, 0, 0, 0) : LaneId) && (submitter.linked_account st).isSome

/-- `bp_messages::MessageKey`. -/
structure MessageKey where
  lane_id : LaneId
  nonce : Nat
deriving DecidableEq, Repr

/-- `bp_messages::MessageData` (payload bytes and declared fee). -/
structure MessageData where
  payload : List Nat
  fee : Nat
deriving DecidableEq, Repr

/-- `bp_messages::Message`. -/
structure Message where
  key : MessageKey
  data : MessageData
deriving DecidableEq, Repr

/-- `bp_messages::target_chain::ProvedLaneMessages`. -/
structure ProvedLaneMessages where
  lane_state : Option OutboundLaneData
  messages : List Message
deriving DecidableEq, Repr

/-- `ProvedMessages<Message> = BTreeMap<LaneId, ProvedLaneMessages<Message>>`,
modelled as an association list; `keys()` is the list of first components. -/
abbrev ProvedMessages := List (LaneId × ProvedLaneMessages)

/-- The hard-coded inbound lane allow-list `[[0, 0, 0, 0]]`. -/
def allowed_incoming_lanes : List LaneId := [(0, 0, 0, 0)]

/-- `verify_inbound_messages_lane`: reject the whole batch with
`INBOUND_LANE_DISABLED` if any key lies outside the allow-list, otherwise
return the input unchanged. -/
def verify_inbound_messages_lane (messages : ProvedMessages) : Except String ProvedMessages :=
  if messages.any (fun kv => !(allowed_incoming_lanes.contains kv.1)) then
    Except.error INBOUND_LANE_DISABLED
  else
    Except.ok messages

/-- `Polkadot::verify_messages_proof`: the external GRANDPA storage-proof
verification (`messages_target::verify_messages_proof`) produces `decoded`;
its result is then piped through `verify_inbound_messages_lane` with
`and_then`. -/
def Polkadot.verify_messages_proof (decoded : Except String ProvedMessages) :
    Except String ProvedMessages :=
  decoded.bind verify_inbound_messages_lane

/-- `WithPolkadotMessageBridgeParameter`: the tagged union of the three
governance-settable bridge parameters. -/
inductive WithPolkadotMessageBridgeParameter where
  | PolkadotToKusamaConversionRate (conversion_rate : FixedU128)
  | PolkadotFeeMultiplier (fee_multiplier : FixedU128)
  | AllowedMessageSender (message_sender : Option AccountId)
deriving DecidableEq, Repr

/-- `MessagesParameter::save`: set the one storage cell named by the
variant, as a function on the parameter state. -/
def WithPolkadotMessageBridgeParameter.save
    (p : WithPolkadotMessageBridgeParameter) (st : BridgeParams) : BridgeParams :=
  match p with
  | WithPolkadotMessageBridgeParameter.PolkadotToKusamaConversionRate conversion_rate =>
      { st with polkadotToKusamaConversionRate := conversion_rate }
  | WithPolkadotMessageBridgeParameter.PolkadotFeeMultiplier fee_multiplier =>
      { st with polkadotFeeMultiplier := fee_multiplier }
  | WithPolkadotMessageBridgeParameter.AllowedMessageSender message_sender =>
      { st with allowedMessageSender := message_sender }

/-- `bridge_runtime_common::messages::MessageTransaction<Weight>`: a
dispatch-weight / encoded-size pair. -/
structure MessageTransaction where
  dispatch_weight : Nat
  size : Nat
deriving DecidableEq, Repr

/-- `u64` saturating addition (`Weight` arithmetic). -/
def satAdd64 (a b : Nat) : Nat := min (a + b) U64MAX

/-- `u64` saturating multiplication (`Weight` arithmetic). -/
def satMul64 (a b : Nat) : Nat := min (a * b) U64MAX

/-- `u32` saturating addition. -/
def satAdd32 (a b : Nat) : Nat := min (a + b) U32MAX

/-- Modelled from the spec: the numeric constants
`pallet_bridge_messages::EXPECTED_DEFAULT_MESSAGE_LENGTH`,
`bp_polkadot::ADDITIONAL_MESSAGE_BYTE_DELIVERY_WEIGHT`,
`bp_polkadot::DEFAULT_MESSAGE_DELIVERY_TX_WEIGHT`,
`bp_polkadot::PAY_INBOUND_DISPATCH_FEE_WEIGHT`,
`bp_kusama::EXTRA_STORAGE_PROOF_SIZE` and `bp_polkadot::TX_EXTRA_BYTES`
live in bridge-primitive crates outside this file; the spec fixes none of
their values, so they are carried as an abstract record and the theorems
quantify over them. -/
structure DeliveryWeightConstants where
  EXPECTED_DEFAULT_MESSAGE_LENGTH : Nat
  ADDITIONAL_MESSAGE_BYTE_DELIVERY_WEIGHT : Nat
  DEFAULT_MESSAGE_DELIVERY_TX_WEIGHT : Nat
  PAY_INBOUND_DISPATCH_FEE_WEIGHT : Nat
  EXTRA_STORAGE_PROOF_SIZE : Nat
  TX_EXTRA_BYTES : Nat
deriving DecidableEq, Repr

/-- `Polkadot::estimate_delivery_transaction`: clamp the payload length to
`u32`, count the bytes beyond the expected default length (saturating
subtraction), charge `ADDITIONAL_MESSAGE_BYTE_DELIVERY_WEIGHT` per extra
byte on top of the default delivery weight, optionally deduct the
pay-dispatch-fee weight, and add the message's own dispatch weight; the
size is the clamped payload length plus storage-proof and extra bytes. -/
def Polkadot.estimate_delivery_transaction (C : DeliveryWeightConstants)
    (message_payload : List Nat) (include_pay_dispatch_fee_cost : Bool)
    (message_dispatch_weight : Nat) : MessageTransaction :=
  let message_payload_len := min message_payload.length U32MAX
  let extra_bytes_in_payload := message_payload_len - C.EXPECTED_DEFAULT_MESSAGE_LENGTH
  { dispatch_weight :=
      satAdd64
        ((satAdd64 (satMul64 extra_bytes_in_payload C.ADDITIONAL_MESSAGE_BYTE_DELIVERY_WEIGHT)
            C.DEFAULT_MESSAGE_DELIVERY_TX_WEIGHT)
          - (if include_pay_dispatch_fee_cost then 0 else C.PAY_INBOUND_DISPATCH_FEE_WEIGHT))
        message_dispatch_weight
    size := satAdd32 (satAdd32 message_payload_len C.EXTRA_STORAGE_PROOF_SIZE) C.TX_EXTRA_BYTES }

/-! Concrete sample inputs used to instantiate the theorems below. -/

/-- A parameter state with both fixed-point parameters at 1 and the given
allowed sender. -/
def sampleParams (sender : Option AccountId) : BridgeParams :=
  { polkadotToKusamaConversionRate := FixedU128.one
    polkadotFeeMultiplier := FixedU128.one
    allowedMessageSender := sender }

/-- A Council quorum origin: one approval out of one member. -/
def sampleCouncilOrigin : Origin :=
  ⟨OriginCaller.Council (CollectiveRawOrigin.Members 1 1)⟩

/-- A directly signed origin for account 1. -/
def sampleSignedOrigin : Origin :=
  ⟨OriginCaller.system (SystemRawOrigin.Signed 1)⟩

/-- A minimal message payload. -/
def samplePayload : ToPolkadotMessagePayload :=
  { spec_version := 0, weight := 0, origin := CallOrigin.SourceRoot
    dispatch_fee_payment := DispatchFeePayment.AtSourceChain, call := [] }

/-- A fresh outbound lane state. -/
def sampleLaneData : OutboundLaneData :=
  { oldest_unpruned_nonce := 1, latest_received_nonce := 0, latest_generated_nonce := 0 }

/-- A generic verifier that accepts everything, standing in for a run of
`FromThisChainMessageVerifier` whose own checks pass. -/
def acceptAllVerifier : GenericVerifier := fun _ _ _ _ _ => Except.ok ()

/-- Claim C1: when the stored `AllowedMessageSender` is `Some(a)`,
`ToPolkadotMessageVerifier::verify_message` returns `Ok` only if the
submitter's linked account resolves to `Some(a)`, and whenever the linked
account differs from `a` (or resolves to no account) it returns the
`NOT_ALLOWED_MESSAGE_SENDER` error — for every submitter, fee, lane,
outbound lane state, payload and generic-verifier behaviour. -/
theorem claim_C1_allowed_sender_gate (st : BridgeParams) (a : AccountId)
    (generic : GenericVerifier) (submitter : Origin) (fee : Nat) (lane : LaneId)
    (lane_data : OutboundLaneData) (payload : ToPolkadotMessagePayload)
    (hset : st.allowedMessageSender = some a) :
    (ToPolkadotMessageVerifier.verify_message st generic submitter fee lane lane_data payload
        = Except.ok () → submitter.linked_account st = some a) ∧
    (submitter.linked_account st ≠ some a →
      ToPolkadotMessageVerifier.verify_message st generic submitter fee lane lane_data payload
        = Except.error NOT_ALLOWED_MESSAGE_SENDER) := by
  unfold ToPolkadotMessageVerifier.verify_message
  rw [hset]
  by_cases h : submitter.linked_account st = some a
  · simp [h]
  · simp [h]

/-- Witness for C1: with the allowed sender set to account 2, a Council
quorum origin (whose linked account is 2) satisfies both conjuncts. -/
theorem claim_C1_allowed_sender_gate_witness :
    (sampleParams (some 2)).allowedMessageSender = some 2 ∧
    ((ToPolkadotMessageVerifier.verify_message (sampleParams (some 2)) acceptAllVerifier
        sampleCouncilOrigin 0 (0, 0, 0, 0) sampleLaneData samplePayload
        = Except.ok () → sampleCouncilOrigin.linked_account (sampleParams (some 2)) = some 2) ∧
     (sampleCouncilOrigin.linked_account (sampleParams (some 2)) ≠ some 2 →
      ToPolkadotMessageVerifier.verify_message (sampleParams (some 2)) acceptAllVerifier
        sampleCouncilOrigin 0 (0, 0, 0, 0) sampleLaneData samplePayload
        = Except.error NOT_ALLOWED_MESSAGE_SENDER)) :=
  ⟨rfl, claim_C1_allowed_sender_gate (sampleParams (some 2)) 2 acceptAllVerifier
    sampleCouncilOrigin 0 (0, 0, 0, 0) sampleLaneData samplePayload rfl⟩

/-- Claim C2: `verify_inbound_messages_lane` fails with
`INBOUND_LANE_DISABLED` exactly when some lane key of the proved-messages
map is outside the allow-list `{[0,0,0,0]}`; when every lane is allowed it
returns the input unchanged, and `Polkadot::verify_messages_proof` after a
successful proof decoding does the same — a single disallowed lane rejects
the whole batch. -/
theorem claim_C2_inbound_lane_allowlist (m : ProvedMessages) :
    (verify_inbound_messages_lane m = Except.error INBOUND_LANE_DISABLED ↔
      ∃ kv ∈ m, kv.1 ≠ ((0, 0, 0, 0) : LaneId)) ∧
    ((∀ kv ∈ m, kv.1 = ((0, 0, 0, 0) : LaneId)) →
      verify_inbound_messages_lane m = Except.ok m ∧
      Polkadot.verify_messages_proof (Except.ok m) = Except.ok m) := by
  have hany : (m.any fun kv => !(allowed_incoming_lanes.contains kv.1)) = true ↔
      ∃ kv ∈ m, kv.1 ≠ ((0, 0, 0, 0) : LaneId) := by
    simp [allowed_incoming_lanes, List.any_eq_true, List.elem_iff]
  have hbind : Polkadot.verify_messages_proof (Except.ok m) = verify_inbound_messages_lane m := rfl
  by_cases h : (m.any fun kv => !(allowed_incoming_lanes.contains kv.1)) = true
  · have hex := hany.mp h
    refine ⟨?_, ?_⟩
    · have herr : verify_inbound_messages_lane m = Except.error INBOUND_LANE_DISABLED := by
        unfold verify_inbound_messages_lane
        rw [if_pos h]
      rw [herr]
      exact iff_of_true rfl hex
    · intro hall
      obtain ⟨kv, hkv, hne⟩ := hex
      exact absurd (hall kv hkv) hne
  · have hok : verify_inbound_messages_lane m = Except.ok m := by
      simp only [verify_inbound_messages_lane, if_neg h]
    refine ⟨?_, fun _ => ⟨hok, hbind.trans hok⟩⟩
    rw [hok]
    exact iff_of_false (fun hc => Except.noConfusion hc) (fun hex => h (hany.mpr hex))

/-- Claim C7: `WithPolkadotMessageBridgeParameter::save` is idempotent —
applying the same parameter update twice leaves the parameter store exactly
as applying it once does. -/
theorem claim_C7_save_idempotent (p : WithPolkadotMessageBridgeParameter) (st : BridgeParams) :
    p.save (p.save st) = p.save st := by
  cases p <;> rfl

/-- Claim C8: each parameter variant is independently settable —
`save` with the conversion-rate variant changes only the stored conversion
rate, and symmetrically for the fee-multiplier and allowed-sender variants. -/
theorem claim_C8_save_frame (st : BridgeParams) (r m : FixedU128) (s : Option AccountId) :
    (((WithPolkadotMessageBridgeParameter.PolkadotToKusamaConversionRate r).save st).polkadotToKusamaConversionRate = r ∧
     ((WithPolkadotMessageBridgeParameter.PolkadotToKusamaConversionRate r).save st).polkadotFeeMultiplier = st.polkadotFeeMultiplier ∧
     ((WithPolkadotMessageBridgeParameter.PolkadotToKusamaConversionRate r).save st).allowedMessageSender = st.allowedMessageSender) ∧
    (((WithPolkadotMessageBridgeParameter.PolkadotFeeMultiplier m).save st).polkadotFeeMultiplier = m ∧
     ((WithPolkadotMessageBridgeParameter.PolkadotFeeMultiplier m).save st).polkadotToKusamaConversionRate = st.polkadotToKusamaConversionRate ∧
     ((WithPolkadotMessageBridgeParameter.PolkadotFeeMultiplier m).save st).allowedMessageSender = st.allowedMessageSender) ∧
    (((WithPolkadotMessageBridgeParameter.AllowedMessageSender s).save st).allowedMessageSender = s ∧
     ((WithPolkadotMessageBridgeParameter.AllowedMessageSender s).save st).polkadotToKusamaConversionRate = st.polkadotToKusamaConversionRate ∧
     ((WithPolkadotMessageBridgeParameter.AllowedMessageSender s).save st).polkadotFeeMultiplier = st.polkadotFeeMultiplier) :=
  ⟨⟨rfl, rfl, rfl⟩, ⟨rfl, rfl, rfl⟩, ⟨rfl, rfl, rfl⟩⟩

/-- Claim C9: `Kusama::is_message_accepted` holds exactly when the lane is
the single compiled-in identifier `[0,0,0,0]` and the submitter resolves to
some linked account; every other lane is rejected, for every parameter
state (the lane allow-list is a literal in the code, not read from
storage). -/
theorem claim_C9_outbound_lane_allowlist (st : BridgeParams) (submitter : Origin) (lane : LaneId) :
    Kusama.is_message_accepted st submitter lane = true ↔
      (lane = ((0, 0, 0, 0) : LaneId) ∧ (submitter.linked_account st).isSome = true) := by
  simp [Kusama.is_message_accepted]

/-- Claim C10: when the stored `AllowedMessageSender` is `None` (its genesis
default), `ToPolkadotMessageVerifier::verify_message` rejects every
submission with the `NOT_ALLOWED_MESSAGE_SENDER` error, whatever the
submitter, fee, lane, lane state, payload or generic-verifier behaviour. -/
theorem claim_C10_unset_sender_closes_bridge (st : BridgeParams)
    (generic : GenericVerifier) (submitter : Origin) (fee : Nat) (lane : LaneId)
    (lane_data : OutboundLaneData) (payload : ToPolkadotMessagePayload)
    (hnone : st.allowedMessageSender = none) :
    ToPolkadotMessageVerifier.verify_message st generic submitter fee lane lane_data payload
      = Except.error NOT_ALLOWED_MESSAGE_SENDER := by
  unfold ToPolkadotMessageVerifier.verify_message
  rw [hnone]

/-- Witness for C10: at genesis (allowed sender unset) even a Council quorum
origin with an accepting generic verifier is rejected. -/
theorem claim_C10_unset_sender_closes_bridge_witness :
    BridgeParams.genesis.allowedMessageSender = none ∧
    ToPolkadotMessageVerifier.verify_message BridgeParams.genesis acceptAllVerifier
      sampleCouncilOrigin 0 (0, 0, 0, 0) sampleLaneData samplePayload
      = Except.error NOT_ALLOWED_MESSAGE_SENDER :=
  ⟨rfl, claim_C10_unset_sender_closes_bridge BridgeParams.genesis acceptAllVerifier
    sampleCouncilOrigin 0 (0, 0, 0, 0) sampleLaneData samplePayload rfl⟩

/-- Counterexample to claim C3 (production build): with the allowed sender
set to account 2, a directly signed origin for account 1 does NOT resolve to
itself (it resolves to no account), and the non-quorum Council variant
`Member(3)` resolves to the allowed sender rather than to no account. -/
theorem claim_C3_counterexample :
    Origin.linked_account (sampleParams (some 2)) sampleSignedOrigin ≠ some 1 ∧
    Origin.linked_account (sampleParams (some 2))
      ⟨OriginCaller.Council (CollectiveRawOrigin.Member 3)⟩ = some 2 := by
  exact ⟨by decide, rfl⟩

/-- Claim C3 as amended: in the production build, `linked_account` resolves
every `system` origin (including directly signed ones) to no account, every
`Council` origin variant — quorum `Members`, single `Member` and `Phantom`
alike — to the stored allowed sender (no account when it is unset), and
every other origin kind to no account. -/
theorem claim_C3_linked_account_by_variant (st : BridgeParams) :
    (∀ o : SystemRawOrigin, Origin.linked_account st ⟨OriginCaller.system o⟩ = none) ∧
    (∀ o : CollectiveRawOrigin,
      Origin.linked_account st ⟨OriginCaller.Council o⟩ = st.allowedMessageSender) ∧
    Origin.linked_account st ⟨OriginCaller.OtherOrigin⟩ = none :=
  ⟨fun _ => rfl, fun _ => rfl, rfl⟩

/-- Claim C4: `bridged_balance_to_this_balance` is total and never wraps —
its result is always at most `u128::MAX`, and whenever the fixed-point
product of rate and balance exceeds `u128::MAX` the result is exactly
`Balance::MAX`, for any stored or overriding conversion rate. -/
theorem claim_C4_conversion_total_saturating (st : BridgeParams) (bridged_balance : Nat)
    (rate_override : Option FixedU128) :
    WithPolkadotMessageBridge.bridged_balance_to_this_balance st bridged_balance rate_override
      ≤ U128MAX ∧
    (U128MAX <
        (rate_override.getD st.polkadotToKusamaConversionRate).inner * bridged_balance
          / FixedU128.DIV →
      WithPolkadotMessageBridge.bridged_balance_to_this_balance st bridged_balance rate_override
        = U128MAX) := by
  have hle :
      min ((rate_override.getD st.polkadotToKusamaConversionRate).inner * bridged_balance
        / FixedU128.DIV) U128MAX ≤ U128MAX := min_le_right _ _
  have hval :
      WithPolkadotMessageBridge.bridged_balance_to_this_balance st bridged_balance rate_override
        = min ((rate_override.getD st.polkadotToKusamaConversionRate).inner * bridged_balance
            / FixedU128.DIV) U128MAX := by
    unfold WithPolkadotMessageBridge.bridged_balance_to_this_balance FixedU128.saturating_mul_int
    rw [if_pos hle]
  rw [hval]
  exact ⟨hle, fun hover => min_eq_right (Nat.le_of_lt hover)⟩

/-- Claim C5: for a fixed bridged balance, the conversion is monotone
non-decreasing in the supplied conversion rate, never exceeds `u128::MAX`
(and, over `Nat`, is never negative), and at the identity rate returns the
balance unchanged. -/
theorem claim_C5_conversion_monotone_identity (st : BridgeParams) (bridged_balance : Nat)
    (r1 r2 : FixedU128) (hb : bridged_balance ≤ U128MAX) (hr : r1.inner ≤ r2.inner) :
    WithPolkadotMessageBridge.bridged_balance_to_this_balance st bridged_balance (some r1)
      ≤ WithPolkadotMessageBridge.bridged_balance_to_this_balance st bridged_balance (some r2) ∧
    WithPolkadotMessageBridge.bridged_balance_to_this_balance st bridged_balance (some r1)
      ≤ U128MAX ∧
    WithPolkadotMessageBridge.bridged_balance_to_this_balance st bridged_balance
      (some FixedU128.one) = bridged_balance := by
  have hval : ∀ r : FixedU128,
      WithPolkadotMessageBridge.bridged_balance_to_this_balance st bridged_balance (some r)
        = min (r.inner * bridged_balance / FixedU128.DIV) U128MAX := by
    intro r
    unfold WithPolkadotMessageBridge.bridged_balance_to_this_balance FixedU128.saturating_mul_int
    simp only [Option.getD_some]
    rw [if_pos (min_le_right _ _)]
  refine ⟨?_, ?_, ?_⟩
  · rw [hval r1, hval r2]
    exact min_le_min (Nat.div_le_div_right (Nat.mul_le_mul_right _ hr)) le_rfl
  · rw [hval r1]
    exact min_le_right _ _
  · rw [hval FixedU128.one]
    have hdiv : FixedU128.one.inner * bridged_balance / FixedU128.DIV = bridged_balance := by
      show FixedU128.DIV * bridged_balance / FixedU128.DIV = bridged_balance
      exact Nat.mul_div_cancel_left _ (by norm_num [FixedU128.DIV])
    rw [hdiv]
    exact min_eq_left hb

/-- Witness for C5: balance 5 converted at rate 1 versus rate 2 — the
monotonicity, bound and identity conclusions at concrete inputs. -/
theorem claim_C5_conversion_monotone_identity_witness :
    (5 : Nat) ≤ U128MAX ∧ FixedU128.one.inner ≤ (⟨2 * FixedU128.DIV⟩ : FixedU128).inner ∧
    (WithPolkadotMessageBridge.bridged_balance_to_this_balance BridgeParams.genesis 5
        (some FixedU128.one)
      ≤ WithPolkadotMessageBridge.bridged_balance_to_this_balance BridgeParams.genesis 5
        (some ⟨2 * FixedU128.DIV⟩) ∧
     WithPolkadotMessageBridge.bridged_balance_to_this_balance BridgeParams.genesis 5
        (some FixedU128.one) ≤ U128MAX ∧
     WithPolkadotMessageBridge.bridged_balance_to_this_balance BridgeParams.genesis 5
        (some FixedU128.one) = 5) :=
  ⟨by norm_num [U128MAX], by norm_num [FixedU128.one, FixedU128.DIV],
    claim_C5_conversion_monotone_identity BridgeParams.genesis 5 FixedU128.one
      ⟨2 * FixedU128.DIV⟩ (by norm_num [U128MAX]) (by norm_num [FixedU128.one, FixedU128.DIV])⟩

/-- Saturating `u64` addition is monotone in both arguments. -/
theorem satAdd64_mono {a b c d : Nat} (h1 : a ≤ c) (h2 : b ≤ d) :
    satAdd64 a b ≤ satAdd64 c d :=
  min_le_min (Nat.add_le_add h1 h2) le_rfl

/-- Saturating `u64` multiplication is monotone in both arguments. -/
theorem satMul64_mono {a b c d : Nat} (h1 : a ≤ c) (h2 : b ≤ d) :
    satMul64 a b ≤ satMul64 c d :=
  min_le_min (Nat.mul_le_mul h1 h2) le_rfl

/-- Saturating `u32` addition is monotone in both arguments. -/
theorem satAdd32_mono {a b c d : Nat} (h1 : a ≤ c) (h2 : b ≤ d) :
    satAdd32 a b ≤ satAdd32 c d :=
  min_le_min (Nat.add_le_add h1 h2) le_rfl

/-- Below the bound, saturating `u64` addition is plain addition. -/
theorem satAdd64_eq_add {a b : Nat} (h : a + b ≤ U64MAX) : satAdd64 a b = a + b :=
  min_eq_left h

/-- Below the bound, saturating `u64` multiplication is plain multiplication. -/
theorem satMul64_eq_mul {a b : Nat} (h : a * b ≤ U64MAX) : satMul64 a b = a * b :=
  min_eq_left h

/-- Claim C6: for a fixed dispatch weight and fee-cost flag, the delivery
transaction estimated by `Polkadot::estimate_delivery_transaction` is
monotone non-decreasing in the payload size (both in dispatch weight and in
encoded size), and — while no saturation bound is hit — one extra payload
byte above the expected default message length raises the dispatch weight
by exactly `ADDITIONAL_MESSAGE_BYTE_DELIVERY_WEIGHT`. -/
theorem claim_C6_delivery_estimate_growth (C : DeliveryWeightConstants)
    (include_pay_dispatch_fee_cost : Bool) (message_dispatch_weight : Nat)
    (p1 p2 : List Nat) (S : Nat)
    (hlen : p1.length ≤ p2.length)
    (hS1 : C.EXPECTED_DEFAULT_MESSAGE_LENGTH ≤ S)
    (hS2 : S + 1 ≤ U32MAX)
    (hPD : C.PAY_INBOUND_DISPATCH_FEE_WEIGHT ≤ C.DEFAULT_MESSAGE_DELIVERY_TX_WEIGHT)
    (hsat : (S + 1 - C.EXPECTED_DEFAULT_MESSAGE_LENGTH)
          * C.ADDITIONAL_MESSAGE_BYTE_DELIVERY_WEIGHT
          + C.DEFAULT_MESSAGE_DELIVERY_TX_WEIGHT + message_dispatch_weight ≤ U64MAX) :
    ((Polkadot.estimate_delivery_transaction C p1 include_pay_dispatch_fee_cost
        message_dispatch_weight).dispatch_weight
      ≤ (Polkadot.estimate_delivery_transaction C p2 include_pay_dispatch_fee_cost
        message_dispatch_weight).dispatch_weight ∧
     (Polkadot.estimate_delivery_transaction C p1 include_pay_dispatch_fee_cost
        message_dispatch_weight).size
      ≤ (Polkadot.estimate_delivery_transaction C p2 include_pay_dispatch_fee_cost
        message_dispatch_weight).size) ∧
    (Polkadot.estimate_delivery_transaction C (List.replicate (S + 1) 0)
        include_pay_dispatch_fee_cost message_dispatch_weight).dispatch_weight
      = (Polkadot.estimate_delivery_transaction C (List.replicate S 0)
          include_pay_dispatch_fee_cost message_dispatch_weight).dispatch_weight
        + C.ADDITIONAL_MESSAGE_BYTE_DELIVERY_WEIGHT := by
  have hmin : min p1.length U32MAX ≤ min p2.length U32MAX := min_le_min hlen le_rfl
  refine ⟨⟨?_, ?_⟩, ?_⟩
  · simp only [Polkadot.estimate_delivery_transaction]
    exact satAdd64_mono
      (Nat.sub_le_sub_right
        (satAdd64_mono (satMul64_mono (Nat.sub_le_sub_right hmin _) le_rfl) le_rfl) _)
      le_rfl
  · simp only [Polkadot.estimate_delivery_transaction]
    exact satAdd32_mono (satAdd32_mono hmin le_rfl) le_rfl
  · simp only [Polkadot.estimate_delivery_transaction, List.length_replicate]
    have hmina : min (S + 1) U32MAX = S + 1 := min_eq_left hS2
    have hminb : min S U32MAX = S := min_eq_left (Nat.le_trans (Nat.le_succ S) hS2)
    rw [hmina, hminb]
    have hk : S + 1 - C.EXPECTED_DEFAULT_MESSAGE_LENGTH
        = (S - C.EXPECTED_DEFAULT_MESSAGE_LENGTH) + 1 := Nat.sub_add_comm hS1
    rw [hk] at hsat ⊢
    obtain ⟨k, hkval⟩ : ∃ k, S - C.EXPECTED_DEFAULT_MESSAGE_LENGTH = k := ⟨_, rfl⟩
    rw [hkval] at hsat ⊢
    have hA1 : (k + 1) * C.ADDITIONAL_MESSAGE_BYTE_DELIVERY_WEIGHT ≤ U64MAX :=
      Nat.le_trans (Nat.le_add_right _ _) (Nat.le_trans (Nat.le_add_right _ _) hsat)
    have hstep : k * C.ADDITIONAL_MESSAGE_BYTE_DELIVERY_WEIGHT
        ≤ (k + 1) * C.ADDITIONAL_MESSAGE_BYTE_DELIVERY_WEIGHT :=
      Nat.mul_le_mul_right _ (Nat.le_succ k)
    have hA0 : k * C.ADDITIONAL_MESSAGE_BYTE_DELIVERY_WEIGHT ≤ U64MAX :=
      Nat.le_trans hstep hA1
    have hAD1 : (k + 1) * C.ADDITIONAL_MESSAGE_BYTE_DELIVERY_WEIGHT
        + C.DEFAULT_MESSAGE_DELIVERY_TX_WEIGHT ≤ U64MAX :=
      Nat.le_trans (Nat.le_add_right _ _) hsat
    have hAD0 : k * C.ADDITIONAL_MESSAGE_BYTE_DELIVERY_WEIGHT
        + C.DEFAULT_MESSAGE_DELIVERY_TX_WEIGHT ≤ U64MAX :=
      Nat.le_trans (Nat.add_le_add_right hstep _) hAD1
    rw [satMul64_eq_mul hA1, satMul64_eq_mul hA0,
      satAdd64_eq_add hAD1, satAdd64_eq_add hAD0]
    have hfin1 : ((k + 1) * C.ADDITIONAL_MESSAGE_BYTE_DELIVERY_WEIGHT
        + C.DEFAULT_MESSAGE_DELIVERY_TX_WEIGHT
        - (if include_pay_dispatch_fee_cost then 0 else C.PAY_INBOUND_DISPATCH_FEE_WEIGHT))
        + message_dispatch_weight ≤ U64MAX :=
      Nat.le_trans (Nat.add_le_add_right (Nat.sub_le _ _) _) hsat
    have hfin0 : (k * C.ADDITIONAL_MESSAGE_BYTE_DELIVERY_WEIGHT
        + C.DEFAULT_MESSAGE_DELIVERY_TX_WEIGHT
        - (if include_pay_dispatch_fee_cost then 0 else C.PAY_INBOUND_DISPATCH_FEE_WEIGHT))
        + message_dispatch_weight ≤ U64MAX :=
      Nat.le_trans
        (Nat.add_le_add_right
          (Nat.sub_le_sub_right (Nat.add_le_add_right hstep _) _) _)
        hfin1
    rw [satAdd64_eq_add hfin1, satAdd64_eq_add hfin0]
    have hmul : (k + 1) * C.ADDITIONAL_MESSAGE_BYTE_DELIVERY_WEIGHT
        = k * C.ADDITIONAL_MESSAGE_BYTE_DELIVERY_WEIGHT
          + C.ADDITIONAL_MESSAGE_BYTE_DELIVERY_WEIGHT := by ring
    rw [hmul]
    have hpayD :
        (if include_pay_dispatch_fee_cost then 0 else C.PAY_INBOUND_DISPATCH_FEE_WEIGHT)
          ≤ C.DEFAULT_MESSAGE_DELIVERY_TX_WEIGHT := by
      split
      · exact Nat.zero_le _
      · exact hPD
    omega

/-- Sample delivery-weight constants used to instantiate C6's theorem. -/
def sampleWeightConstants : DeliveryWeightConstants :=
  { EXPECTED_DEFAULT_MESSAGE_LENGTH := 128
    ADDITIONAL_MESSAGE_BYTE_DELIVERY_WEIGHT := 3
    DEFAULT_MESSAGE_DELIVERY_TX_WEIGHT := 1000
    PAY_INBOUND_DISPATCH_FEE_WEIGHT := 100
    EXTRA_STORAGE_PROOF_SIZE := 10
    TX_EXTRA_BYTES := 20 }

/-- Witness for C6: monotonicity between an empty and a one-byte payload,
and the exact 3-units-per-byte growth at payload size 128 → 129, at the
sample constants. -/
theorem claim_C6_delivery_estimate_growth_witness :
    ((Polkadot.estimate_delivery_transaction sampleWeightConstants [] false 5).dispatch_weight
        ≤ (Polkadot.estimate_delivery_transaction sampleWeightConstants [7] false
            5).dispatch_weight ∧
      (Polkadot.estimate_delivery_transaction sampleWeightConstants [] false 5).size
        ≤ (Polkadot.estimate_delivery_transaction sampleWeightConstants [7] false 5).size) ∧
    (Polkadot.estimate_delivery_transaction sampleWeightConstants (List.replicate (128 + 1) 0)
        false 5).dispatch_weight
      = (Polkadot.estimate_delivery_transaction sampleWeightConstants (List.replicate 128 0)
          false 5).dispatch_weight
        + sampleWeightConstants.ADDITIONAL_MESSAGE_BYTE_DELIVERY_WEIGHT :=
  claim_C6_delivery_estimate_growth sampleWeightConstants false 5 [] [7] 128
    (by decide) (by decide) (by decide) (by decide) (by decide)

end PolkadotMessages
